import Mathlib

/-!
Verification of `src/fonts/generate-fonts.py` (the FontSubsetter script of the
lite-xl-lsp repository) against its specification.

The script is straight-line Python run under the fontforge interpreter:
it builds a literal list of 52 one-character symbol strings, maps Python
`ord` over it to obtain the target Unicode code points, opens the source
font, selects the target code points, inverts the selection, clears the
selected (complement) glyphs, overwrites the three naming-metadata fields
with fixed literals, and generates `symbols.ttf`.

Python strings are modelled as lists of Unicode code points (`PyStr`),
`ord` as an `Option`-valued function (`none` models the `TypeError` raised
on a string whose length is not 1), and the font object exposed by the
external fontforge library as a structure with a glyph-by-code-point map,
a selection state, the three naming fields, and an abstract remaining
payload. The fontforge operations themselves (open, select, invert,
clear, generate) are external-library calls; they are modelled from the
specification's description of their contracts, while everything the
script itself contains (the literals, the conversion loop, the order of
the calls) is translated directly from the source.
-/

namespace GenerateFonts

/-- Python string, as a list of Unicode code points. -/
abbrev PyStr := List Nat

/-- Python `ord`: the code point of a one-character string; a string of any
other length raises `TypeError`, modelled as `none`. -/
def pyOrd (s : PyStr) : Option Nat :=
  match s with
  | [c] => some c
  | _ => none

/-- Source font path literal of line 18 of the script. -/
def src_font_path : String := "Symbols-2048-em Nerd Font Complete Mono.ttf"

/-- Output path literal of line 101 of the script. -/
def out_path : String := "symbols.ttf"

/-- The 52 symbol string literals of the `symbols` list (lines 23-82 of the
script), in source order: 26 entries of the Nerdicons group followed by 26
entries of the Codicons group. Each literal is a single character; the code
points are the ones the script annotates in its own inline comments for the
Nerdicons group (0xF77E Text, 0xF6A6 Method, ..., 0xF128 Unknown), and for
the Codicons group the codicon code points carried by the literals (the
distributed file stores the UTF-8 bytes of each character through a cp850
transcoding; inverting it yields exactly one character per literal and
reproduces every annotated Nerdicons value). -/
def symbols : List PyStr := [
  [0xF77E], -- Text
  [0xF6A6], -- Method
  [0xF794], -- Function
  [0xF423], -- Constructor
  [0xFC20], -- Field
  [0xF52A], -- Variable
  [0xFD2F], -- Class
  [0xF0E8], -- Interface
  [0xF487], -- Module
  [0xFC20], -- Property
  [0xF96C], -- Unit
  [0xF89F], -- Value
  [0xF15D], -- Enum
  [0xF80A], -- Keyword
  [0xF44F], -- Snippet
  [0xF8D7], -- Color
  [0xF718], -- File
  [0xF706], -- Reference
  [0xF74A], -- Folder
  [0xF15D], -- EnumMember
  [0xF8FE], -- Constant
  [0xFB44], -- Struct
  [0xF0E7], -- Event
  [0xF694], -- Operator
  [0xF128], -- Unknown
  [0xEA92], -- TypeParameter
  [0xEA93], -- Text (Codicons)
  [0xEA8C], -- Method
  [0xEA8C], -- Function
  [0xEA8C], -- Constructor
  [0xEB5F], -- Field
  [0xEA88], -- Variable
  [0xEB5B], -- Class
  [0xEB61], -- Interface
  [0xEA8B], -- Module
  [0xEB65], -- Property
  [0xEA96], -- Unit
  [0xEA95], -- Value
  [0xEA95], -- Enum
  [0xEB62], -- Keyword
  [0xEB66], -- Snippet
  [0xEB5C], -- Color
  [0xEA7B], -- File
  [0xEA94], -- Reference
  [0xEA83], -- Folder
  [0xEA95], -- EnumMember
  [0xEB5D], -- Constant
  [0xEA91], -- Struct
  [0xEA86], -- Event
  [0xEB64], -- Operator
  [0xF128], -- Unknown
  [0xEA92]  -- TypeParameter
]

/-- The conversion loop of lines 85-87: starting from the empty list, append
`ord char` for each entry of `symbols` in order. A raised `TypeError`
aborts the loop, modelled by collapsing the result to `none`. -/
def unicode_values : Option (List Nat) :=
  symbols.foldl
    (fun acc s =>
      match acc, pyOrd s with
      | some l, some v => some (l ++ [v])
      | _, _ => none)
    (some [])

/-- The concrete value the conversion loop produces: the code point of each
symbol, in source order. -/
def target_values : List Nat :=
  [0xF77E, 0xF6A6, 0xF794, 0xF423, 0xFC20, 0xF52A, 0xFD2F, 0xF0E8, 0xF487,
   0xFC20, 0xF96C, 0xF89F, 0xF15D, 0xF80A, 0xF44F, 0xF8D7, 0xF718, 0xF706,
   0xF74A, 0xF15D, 0xF8FE, 0xFB44, 0xF0E7, 0xF694, 0xF128, 0xEA92,
   0xEA93, 0xEA8C, 0xEA8C, 0xEA8C, 0xEB5F, 0xEA88, 0xEB5B, 0xEB61, 0xEA8B,
   0xEB65, 0xEA96, 0xEA95, 0xEA95, 0xEB62, 0xEB66, 0xEB5C, 0xEA7B, 0xEA94,
   0xEA83, 0xEA95, 0xEB5D, 0xEA91, 0xEA86, 0xEB64, 0xF128, 0xEA92]

theorem unicode_values_eq : unicode_values = some target_values := by decide

/-- A font object as exposed by the external font-editing library.
Modelled from the spec: the attributes relevant to the script are the
glyph-by-code-point mapping, the selection state, and the three
font-naming metadata fields; `rest` stands for all remaining font-wide
data the script never touches. A glyph value of type `G` carries the
glyph's outline and metric data abstractly. -/
structure Font (G : Type) where
  glyphs : Nat → Option G
  selected : Nat → Bool
  fontname : String
  familyname : String
  fullname : String
  rest : Nat

variable {G : Type}

/-- Modelled from the spec: `font.selection.select(*values)` selects the
glyph slots at the given code points; selection has no per-glyph effect
beyond marking the slot, and is harmless for absent code points. -/
def select (vals : List Nat) (f : Font G) : Font G :=
  { f with selected := fun c => decide (c ∈ vals) }

/-- Modelled from the spec: `font.selection.invert()` selects exactly the
slots not currently selected. -/
def invert (f : Font G) : Font G :=
  { f with selected := fun c => !f.selected c }

/-- Modelled from the spec: `font.clear()` deletes the glyphs at the
selected slots in place; clearing a slot that holds no glyph is a no-op. -/
def clear (f : Font G) : Font G :=
  { f with glyphs := fun c => if f.selected c then none else f.glyphs c }

/-- Lines 93-100 of the script, after the source font has been loaded:
select the target code points, invert the selection, clear the selected
(complement) glyphs, and overwrite the three naming fields with the fixed
literals. -/
def transform (vals : List Nat) (f : Font G) : Font G :=
  let f₁ := select vals f
  let f₂ := invert f₁
  let f₃ := clear f₂
  { f₃ with
    fontname := "LSPSymbols"
    familyname := "LSP Symbols"
    fullname := "LSP Symbols" }

theorem transform_glyphs (vals : List Nat) (f : Font G) (c : Nat) :
    (transform vals f).glyphs c = if c ∈ vals then f.glyphs c else none := by
  by_cases h : c ∈ vals <;>
    simp [transform, clear, invert, select, h]

/-- Contents of a file on disk: either data the font library decodes as a
font (byte-for-byte identity of generated font files corresponds to
equality of the decoded value, under the spec's assumption that the
library is a deterministic function of its inputs), or raw bytes it cannot
parse as a font. -/
inductive FileData (G : Type) where
  | font : Font G → FileData G
  | raw : List Nat → FileData G

/-- The filesystem as the script sees it: the contents found at each path,
and whether each path is writable. -/
structure FileSys (G : Type) where
  files : String → Option (FileData G)
  writable : String → Bool

/-- The fatal error kinds a run can end with: `typeError` if the `ord`
conversion loop raises, `loadError` if `fontforge.open` fails (path
missing or contents unparseable), `writeError` if `generate` cannot write
the output path. -/
inductive ScriptError where
  | typeError
  | loadError
  | writeError
deriving DecidableEq

/-- Outcome of one run of the script: the error it aborted with (if any)
and the resulting filesystem. -/
structure RunResult (G : Type) where
  err : Option ScriptError
  fs : FileSys G

/-- Modelled from the spec: `fontforge.open(src_font_path)` yields the
decoded font when the path holds parseable font data, and fails (fatal
load error) when the path is missing or its contents are not a font. -/
def openFont (fs : FileSys G) : Option (Font G) :=
  match fs.files src_font_path with
  | some (FileData.font f) => some f
  | _ => none

/-- The part of the script that runs once `unicode_values` has been
computed (lines 90-101): open the source font (fatal load error when the
path is missing or not parseable as a font), apply the in-memory
transform, and generate the output file (fatal write error when the
output path is unwritable). Exactly one write happens, at `out_path`. -/
def runWith (vals : List Nat) (fs : FileSys G) : RunResult G :=
  match openFont fs with
  | none => ⟨some ScriptError.loadError, fs⟩
  | some f =>
      if fs.writable out_path then
        ⟨none,
          ⟨fun p => if p = out_path then some (FileData.font (transform vals f))
                    else fs.files p,
           fs.writable⟩⟩
      else ⟨some ScriptError.writeError, fs⟩

/-- One whole run of the script: the conversion loop of lines 85-87 first
(its `TypeError` would abort the run before any file is touched), then
the load-transform-generate sequence of lines 90-101. -/
def runScript (fs : FileSys G) : RunResult G :=
  match unicode_values with
  | none => ⟨some ScriptError.typeError, fs⟩
  | some vals => runWith vals fs

theorem runScript_eq (fs : FileSys G) : runScript fs = runWith target_values fs := by
  rw [runScript, unicode_values_eq]

theorem src_ne_out : src_font_path ≠ out_path := by decide

theorem openFont_files_eq (fs₁ fs₂ : FileSys G)
    (h : fs₁.files src_font_path = fs₂.files src_font_path) :
    openFont fs₁ = openFont fs₂ := by
  unfold openFont
  rw [h]

theorem openFont_eq_some (fs : FileSys G) (f : Font G) (h : openFont fs = some f) :
    fs.files src_font_path = some (FileData.font f) := by
  unfold openFont at h
  cases hfs : fs.files src_font_path with
  | none => rw [hfs] at h; exact absurd h (by simp)
  | some fd =>
    cases fd with
    | raw b => rw [hfs] at h; simp at h
    | font g =>
      rw [hfs] at h
      simp only [Option.some.injEq] at h
      rw [h]

theorem runWith_ok (vals : List Nat) (fs : FileSys G) (f : Font G)
    (hopen : openFont fs = some f) (hw : fs.writable out_path = true) :
    runWith vals fs =
      ⟨none,
        ⟨fun p => if p = out_path then some (FileData.font (transform vals f))
                  else fs.files p,
         fs.writable⟩⟩ := by
  unfold runWith
  rw [hopen, hw]
  rfl

theorem runWith_err_none (vals : List Nat) (fs : FileSys G)
    (h : (runWith vals fs).err = none) :
    ∃ f, openFont fs = some f ∧ fs.writable out_path = true := by
  cases hopen : openFont fs with
  | none => unfold runWith at h; rw [hopen] at h; simp at h
  | some f =>
    cases hw : fs.writable out_path with
    | false => unfold runWith at h; rw [hopen, hw] at h; simp at h
    | true => exact ⟨f, rfl, rfl⟩

theorem runWith_rerun (vals : List Nat) (fs : FileSys G)
    (h : (runWith vals fs).err = none) :
    runWith vals (runWith vals fs).fs = runWith vals fs := by
  obtain ⟨f, hopen, hw⟩ := runWith_err_none vals fs h
  have h₁ := runWith_ok vals fs f hopen hw
  have hopen₂ :
      openFont (⟨fun p => if p = out_path then some (FileData.font (transform vals f))
                          else fs.files p, fs.writable⟩ : FileSys G) = some f := by
    refine (openFont_files_eq _ fs ?_).trans hopen
    show (if src_font_path = out_path then some (FileData.font (transform vals f))
          else fs.files src_font_path) = fs.files src_font_path
    exact if_neg src_ne_out
  have h₂ := runWith_ok vals _ f hopen₂ hw
  simp only [h₁]
  rw [h₂]
  simp only [RunResult.mk.injEq, FileSys.mk.injEq, true_and, and_true]
  funext p
  by_cases hp : p = out_path <;> simp [hp]

/-- A concrete sample source font: a glyph at the target code point 0xF77E,
a glyph at 0x42 (outside the target set), none elsewhere. Glyph payloads
are numbered so distinct glyphs are distinguishable. -/
def exFont : Font Nat :=
  ⟨fun c => if c = 0xF77E then some 1 else if c = 0x42 then some 2 else none,
   fun _ => false,
   "SymbolsNerdFontCompleteM", "Symbols Nerd Font", "Symbols Nerd Font Mono", 7⟩

/-- A concrete filesystem holding `exFont` at the source path, everything
writable. -/
def exFS : FileSys Nat :=
  ⟨fun p => if p = src_font_path then some (FileData.font exFont) else none,
   fun _ => true⟩

/-- A concrete source font with no glyph at any code point. -/
def noGlyphFont : Font Nat :=
  ⟨fun _ => none, fun _ => false, "Empty", "Empty", "Empty", 0⟩

/-- A concrete filesystem holding `noGlyphFont` at the source path. -/
def noGlyphFS : FileSys Nat :=
  ⟨fun p => if p = src_font_path then some (FileData.font noGlyphFont) else none,
   fun _ => true⟩

/-- A concrete filesystem with no file at all. -/
def emptyFS : FileSys Nat := ⟨fun _ => none, fun _ => true⟩

/-- C1: for every source font and the fixed target code-point set, the
output font has a glyph at a code point iff the code point is in the
target set and the source font has a glyph there — the select, invert,
clear sequence deletes exactly the complement of the target set. -/
theorem glyph_mem_output_iff (f : Font G) (c : Nat) :
    ((transform target_values f).glyphs c).isSome = true ↔
      c ∈ target_values ∧ (f.glyphs c).isSome = true := by
  rw [transform_glyphs]
  by_cases h : c ∈ target_values <;> simp [h]

/-- C2: after the transform the naming-metadata fields equal the fixed
literals, for every source font, whatever naming metadata it carried. -/
theorem naming_fields_fixed (f : Font G) :
    (transform target_values f).fontname = "LSPSymbols" ∧
    (transform target_values f).familyname = "LSP Symbols" ∧
    (transform target_values f).fullname = "LSP Symbols" :=
  ⟨rfl, rfl, rfl⟩

/-- C3: with the external library modelled as a function of its inputs,
two runs on filesystems with identical contents produce identical
results, and re-running on the filesystem a successful run produced
writes the very same output again (the second run overwrites the output
file with byte-for-byte identical data). -/
theorem deterministic_rerun (fs₁ fs₂ : FileSys G)
    (hf : ∀ p, fs₁.files p = fs₂.files p)
    (hw : ∀ p, fs₁.writable p = fs₂.writable p) :
    runScript fs₁ = runScript fs₂ ∧
    ((runScript fs₁).err = none →
      runScript (runScript fs₁).fs = runScript fs₁) := by
  obtain ⟨files₁, w₁⟩ := fs₁
  obtain ⟨files₂, w₂⟩ := fs₂
  obtain rfl : files₁ = files₂ := funext hf
  obtain rfl : w₁ = w₂ := funext hw
  refine ⟨rfl, fun h => ?_⟩
  simp only [runScript_eq] at h ⊢
  exact runWith_rerun target_values _ h

/-- Witness for C3 at a concrete filesystem whose run succeeds. -/
theorem deterministic_rerun_witness :
    (runScript exFS).err = none ∧
    runScript exFS = runScript exFS ∧
    runScript (runScript exFS).fs = runScript exFS :=
  ⟨rfl,
   (deterministic_rerun exFS exFS (fun _ => rfl) (fun _ => rfl)).1,
   (deterministic_rerun exFS exFS (fun _ => rfl) (fun _ => rfl)).2 rfl⟩

/-- C4: a target code point with no glyph in the source font is harmless:
no glyph for it appears in the output, the run still succeeds, and the
output file is written. -/
theorem absent_codepoint_noop (f : Font G) (c : Nat) (fs : FileSys G)
    (hc : c ∈ target_values) (ha : f.glyphs c = none)
    (hsrc : fs.files src_font_path = some (FileData.font f))
    (hw : fs.writable out_path = true) :
    (transform target_values f).glyphs c = none ∧
    (runScript fs).err = none ∧
    (runScript fs).fs.files out_path =
      some (FileData.font (transform target_values f)) := by
  have hopen : openFont fs = some f := by unfold openFont; rw [hsrc]
  have hrun := runWith_ok target_values fs f hopen hw
  simp only [runScript_eq, hrun]
  refine ⟨?_, trivial, by simp⟩
  rw [transform_glyphs, if_pos hc, ha]

/-- Witness for C4: the all-empty source font misses the target code
point 0xF77E, yet the run succeeds and writes the output. -/
theorem absent_codepoint_noop_witness :
    (0xF77E ∈ target_values ∧ noGlyphFont.glyphs 0xF77E = none ∧
     noGlyphFS.files src_font_path = some (FileData.font noGlyphFont) ∧
     noGlyphFS.writable out_path = true) ∧
    ((transform target_values noGlyphFont).glyphs 0xF77E = none ∧
     (runScript noGlyphFS).err = none ∧
     (runScript noGlyphFS).fs.files out_path =
       some (FileData.font (transform target_values noGlyphFont))) :=
  ⟨⟨by decide, rfl, by simp [noGlyphFS], rfl⟩,
   absent_codepoint_noop noGlyphFont 0xF77E noGlyphFS (by decide) rfl
     (by simp [noGlyphFS]) rfl⟩

/-- C5: the keep/delete outcome depends only on the set of code points:
two value lists with the same members (any reordering or deduplication of
the literal list) give the same glyph map. -/
theorem kept_glyphs_set_invariant (vs ws : List Nat)
    (h₁ : ∀ c ∈ vs, c ∈ ws) (h₂ : ∀ c ∈ ws, c ∈ vs) (f : Font G) :
    (transform vs f).glyphs = (transform ws f).glyphs := by
  funext c
  rw [transform_glyphs, transform_glyphs]
  by_cases h : c ∈ vs
  · rw [if_pos h, if_pos (h₁ c h)]
  · rw [if_neg h, if_neg fun hc => h (h₂ c hc)]

/-- Witness for C5: the deduplicated target list keeps the same glyphs as
the literal 52-entry list on a concrete font. -/
theorem kept_glyphs_set_invariant_witness :
    ((∀ c ∈ target_values, c ∈ target_values.dedup) ∧
     (∀ c ∈ target_values.dedup, c ∈ target_values)) ∧
    (transform target_values exFont).glyphs =
      (transform target_values.dedup exFont).glyphs :=
  ⟨⟨by decide, by decide⟩,
   kept_glyphs_set_invariant target_values target_values.dedup
     (by decide) (by decide) exFont⟩

/-- C6: when the source path is missing, or holds data the library cannot
parse as a font, the run aborts with the fatal load error and the
filesystem is unchanged — in particular no output file is produced. -/
theorem load_failure_atomic (fs : FileSys G)
    (h : fs.files src_font_path = none ∨
         ∃ b, fs.files src_font_path = some (FileData.raw b)) :
    (runScript fs).err = some ScriptError.loadError ∧ (runScript fs).fs = fs := by
  have hopen : openFont fs = none := by
    unfold openFont
    rcases h with h | ⟨b, h⟩ <;> rw [h]
  rw [runScript_eq]
  unfold runWith
  rw [hopen]
  exact ⟨rfl, rfl⟩

/-- Witness for C6 on the concrete filesystem with no source file. -/
theorem load_failure_atomic_witness :
    emptyFS.files src_font_path = none ∧
    (runScript emptyFS).err = some ScriptError.loadError ∧
    (runScript emptyFS).fs = emptyFS :=
  ⟨rfl, load_failure_atomic emptyFS (Or.inl rfl)⟩

/-- C7: the conversion loop succeeds and yields exactly the element-wise
`ord` of the 52-entry symbols list, in order, with the same length, and
the resulting list of target code points is non-empty. -/
theorem unicode_values_spec :
    unicode_values = some target_values ∧
    symbols.map pyOrd = target_values.map some ∧
    symbols.length = 52 ∧
    target_values.length = symbols.length ∧
    target_values ≠ [] := by
  refine ⟨unicode_values_eq, by decide, rfl, rfl, by decide⟩

/-- C8: a successful run writes exactly one file, the output path: every
other path — the source font file in particular — keeps its previous
contents, the output path holds the generated font, and writability is
untouched. -/
theorem single_write_frame (fs : FileSys G) (h : (runScript fs).err = none) :
    (runScript fs).fs.files src_font_path = fs.files src_font_path ∧
    (∀ p, p ≠ out_path → (runScript fs).fs.files p = fs.files p) ∧
    (∃ f, fs.files src_font_path = some (FileData.font f) ∧
      (runScript fs).fs.files out_path =
        some (FileData.font (transform target_values f))) ∧
    (∀ p, (runScript fs).fs.writable p = fs.writable p) := by
  rw [runScript_eq] at h
  obtain ⟨f, hopen, hw⟩ := runWith_err_none target_values fs h
  have hsrc := openFont_eq_some fs f hopen
  have hrun := runWith_ok target_values fs f hopen hw
  simp only [runScript_eq, hrun]
  refine ⟨?_, fun p hp => ?_, ⟨f, hsrc, by simp⟩, fun p => trivial⟩
  · show (if src_font_path = out_path then some (FileData.font (transform target_values f))
          else fs.files src_font_path) = fs.files src_font_path
    exact if_neg src_ne_out
  · exact if_neg hp

/-- Witness for C8 on a concrete successful run: the source file and an
unrelated path are untouched. -/
theorem single_write_frame_witness :
    (runScript exFS).err = none ∧
    (runScript exFS).fs.files src_font_path = exFS.files src_font_path ∧
    (runScript exFS).fs.files "README.md" = exFS.files "README.md" :=
  ⟨rfl, (single_write_frame exFS rfl).1,
   (single_write_frame exFS rfl).2.1 "README.md" (by decide)⟩

/-- C9: every entry of the literal symbols list is a one-character string,
so `ord` succeeds on each of them — the conversion loop is total. -/
theorem symbols_single_char :
    ∀ s ∈ symbols, s.length = 1 ∧ (pyOrd s).isSome = true := by decide

/-- Witness for C9 at the first entry of the list. -/
theorem symbols_single_char_witness :
    [0xF77E] ∈ symbols ∧
    ([0xF77E] : PyStr).length = 1 ∧ (pyOrd [0xF77E]).isSome = true :=
  ⟨by decide, symbols_single_char [0xF77E] (by decide)⟩

/-- C10: the transform touches nothing beyond the selection state, the
cleared non-target glyphs and the three naming fields: every retained
target glyph keeps exactly its source outline/metric payload at the same
code point, and the font's remaining data is unchanged. -/
theorem retained_glyphs_frame (f : Font G) (c : Nat) (hc : c ∈ target_values) :
    (transform target_values f).glyphs c = f.glyphs c ∧
    (transform target_values f).rest = f.rest := by
  refine ⟨?_, rfl⟩
  rw [transform_glyphs, if_pos hc]

/-- Witness for C10 at the Codicons Text code point on a concrete font. -/
theorem retained_glyphs_frame_witness :
    0xEA93 ∈ target_values ∧
    ((transform target_values exFont).glyphs 0xEA93 = exFont.glyphs 0xEA93 ∧
     (transform target_values exFont).rest = exFont.rest) :=
  ⟨by decide, retained_glyphs_frame exFont 0xEA93 (by decide)⟩

end GenerateFonts
